import Mathlib

/-!
# VNC_config.h as a function on preprocessor symbol tables

`src/VNC_config.h` holds no run-time code: it is a sequence of preprocessor
directives.  Its behaviour is the effect of those directives on the table of
defined names, given the names that were already defined when the header is
read (command line `-D` options, the platform, an earlier inclusion).

The development has three layers:

* the table of definitions (`MacroDef`, `Table`, `lookup`, `define`);
* a line-by-line interpreter for the directives the header uses
  (`#ifdef`, `#ifndef`, `#if`, `#elif`, `#else`, `#endif`, `#define`,
  `#error`, `#warning`), with the usual stack of open conditionals;
* the header itself, `VNC_config_h`, one entry per directive line, each
  carrying its line number in the source file.
-/

namespace VNCConfig

/-! ## Definitions held by the preprocessor -/

/-- One definition: `params = none` for an object-like name
(`#define VNC_TCP_TIMEOUT 5000`), `params = some ps` for a function-like one
(`#define DEBUG_VNC(...) ...` has `ps = ["..."]`); `body` is the replacement
list, one string per preprocessing token. -/
structure MacroDef where
  params : Option (List String)
  body : List String
deriving DecidableEq

/-- The table of current definitions, most recent first, one entry per name. -/
abbrev Table := List (String × MacroDef)

/-- The current definition of a name, if it has one. -/
def lookup : Table → String → Option MacroDef
  | [], _ => none
  | (m, d) :: t, n => if m = n then some d else lookup t n

/-- The preprocessor operator `defined(n)`. -/
def isDefined (t : Table) (n : String) : Bool := (lookup t n).isSome

/-- Drop every entry for a name. -/
def erase : Table → String → Table
  | [], _ => []
  | (m, d) :: t, n => if m = n then erase t n else (m, d) :: erase t n

/-- Effect of `#define n ...`: the new definition replaces an earlier one of
the same name (gcc diagnoses an incompatible redefinition with a warning and
goes on with the new definition; that diagnostic is not recorded here). -/
def define (t : Table) (n : String) (d : MacroDef) : Table := (n, d) :: erase t n

/-- An object-like definition with an empty replacement list (`#define X`). -/
def flag : MacroDef := ⟨none, []⟩

/-- An object-like definition with the given replacement list. -/
def object (body : List String) : MacroDef := ⟨none, body⟩

/-- A definition of the shape `#define X(...) body`. -/
def variadic (body : List String) : MacroDef := ⟨some ["..."], body⟩

/-- The argument-substitution step alone (C11 6.10.3.1) for a definition of
the shape `#define X(...) body`: every `__VA_ARGS__` of the replacement list
is replaced by `args`, which stands for the argument tokens after their own
replacement.  Neither that replacement of the arguments nor the rescan of the
returned tokens for further defined names (6.10.3.4) is part of this
function, so the returned list is not in general the final text of a call;
an empty returned list leaves nothing to rescan. -/
def invoke (d : MacroDef) (args : List String) : List String :=
  d.body.flatMap (fun tok => if tok = "__VA_ARGS__" then args else [tok])

/-! ## Directives -/

/-- Controlling expressions of `#if` / `#elif`, as far as the header uses them. -/
inductive Cond where
  | defined (n : String)
  | not (c : Cond)
  | and (a b : Cond)
  | or (a b : Cond)
deriving DecidableEq

/-- Value of a controlling expression under the current table. -/
def Cond.eval (t : Table) : Cond → Bool
  | .defined n => isDefined t n
  | .not c => !(c.eval t)
  | .and a b => a.eval t && b.eval t
  | .or a b => a.eval t || b.eval t

/-- One directive line. -/
inductive Line where
  | ifdef_ (n : String)
  | ifndef_ (n : String)
  | if_ (c : Cond)
  | elif (c : Cond)
  | else_
  | endif
  | define (n : String) (d : MacroDef)
  | error (msg : String)
  | warning (msg : String)
deriving DecidableEq

/-- An open conditional section. -/
structure Frame where
  /-- the group enclosing the section is being processed -/
  outer : Bool
  /-- a group of this section has already been selected -/
  taken : Bool
  /-- the group currently being read is processed (not skipped) -/
  live : Bool
deriving DecidableEq

/-- State of the preprocessor between two lines. -/
structure State where
  table : Table
  stack : List Frame
  /-- texts of the `#warning` lines processed so far, oldest first -/
  warnings : List String
  /-- line numbers of the `#define` and `#warning` lines processed so far
  (lines in skipped groups are not processed), oldest first -/
  executed : List Nat
deriving DecidableEq

/-- Whether the line being read lies in a group that is processed. -/
def State.live (s : State) : Bool :=
  match s.stack with
  | [] => true
  | f :: _ => f.live

/-- Open a conditional section whose first group has controlling value `c`. -/
def State.openIf (s : State) (c : Bool) : State :=
  { s with stack := ⟨s.live, s.live && c, s.live && c⟩ :: s.stack }

/-- Result of reading a whole file. -/
inductive Outcome where
  /-- processing stopped at an `#error` (or a stray conditional) on `line` -/
  | rejected (line : Nat) (msg : String)
  /-- the end of the file was reached -/
  | accepted (table : Table) (warnings : List String) (executed : List Nat)
deriving DecidableEq

/-- Read one directive line (`ln` is its line number).  A controlling
expression is evaluated only where the group could still be selected. -/
def step (s : State) (ln : Nat) : Line → Except (Nat × String) State
  | .ifdef_ n => .ok (s.openIf (isDefined s.table n))
  | .ifndef_ n => .ok (s.openIf (!isDefined s.table n))
  | .if_ c => .ok (s.openIf (c.eval s.table))
  | .elif c =>
    match s.stack with
    | [] => .error (ln, "#elif without #if")
    | f :: fs =>
      let sel := f.outer && !f.taken && c.eval s.table
      .ok { s with stack := ⟨f.outer, f.taken || sel, sel⟩ :: fs }
  | .else_ =>
    match s.stack with
    | [] => .error (ln, "#else without #if")
    | f :: fs => .ok { s with stack := ⟨f.outer, true, f.outer && !f.taken⟩ :: fs }
  | .endif =>
    match s.stack with
    | [] => .error (ln, "#endif without #if")
    | _ :: fs => .ok { s with stack := fs }
  | .define n d =>
    if s.live then
      .ok { s with table := define s.table n d, executed := s.executed ++ [ln] }
    else .ok s
  | .error msg => if s.live then .error (ln, msg) else .ok s
  | .warning msg =>
    if s.live then
      .ok { s with warnings := s.warnings ++ [msg], executed := s.executed ++ [ln] }
    else .ok s

/-- Read the lines of a file in order. -/
def run : List (Nat × Line) → State → Outcome
  | [], s =>
    match s.stack with
    | [] => .accepted s.table s.warnings s.executed
    | _ :: _ => .rejected 0 "unterminated conditional directive"
  | (ln, l) :: rest, s =>
    match step s ln l with
    | .error (n, msg) => .rejected n msg
    | .ok s' => run rest s'

/-- Read a file starting from the table `D` of names defined beforehand. -/
def preprocessWith (file : List (Nat × Line)) (D : Table) : Outcome :=
  run file ⟨D, [], [], []⟩

/-! ## The header -/

/-- Text of the `#error` on line 45. -/
def errNoDisplay : String :=
  "'At least one display device must be defined at the time of preprocessing: VNC_ILI9341 or VNC_RA8875'"

/-- Text of the `#error` on line 47. -/
def errTwoDisplays : String :=
  "'Only one display device may be defined at the time of preprocessing.'"

/-- Text of the `#warning` on line 55. -/
def warnRA8875 : String :=
  "'There are still some known issues with the RA8875 display; use of the ILI9341 is recommended.'"

/-- Text of the `#error` on line 61. -/
def errUnknownDisplay : String :=
  "'Unknown error while trying to set VNC display!'"

/-- Lines 32-38: include guard and the display chosen by the shipped header. -/
def guardAndDisplay : List (Nat × Line) :=
  [ (32, .ifndef_ "VNC_CONFIG_H_"),
    (33, .define "VNC_CONFIG_H_" flag),
    (38, .define "VNC_ILI9341" flag) ]

/-- Line 44: `!defined(VNC_ILI9341) && !defined(VNC_RA8875)`. -/
def cond44 : Cond := .and (.not (.defined "VNC_ILI9341")) (.not (.defined "VNC_RA8875"))

/-- Line 46: `defined(VNC_ILI9341) && defined(VNC_RA8875)`. -/
def cond46 : Cond := .and (.defined "VNC_ILI9341") (.defined "VNC_RA8875")

/-- Line 49: `defined(VNC_ILI9341)`. -/
def cond49 : Cond := .defined "VNC_ILI9341"

/-- Line 53: `defined(VNC_RA8875)`. -/
def cond53 : Cond := .defined "VNC_RA8875"

/-- Lines 44-63: the display selection chain. -/
def displaySelection : List (Nat × Line) :=
  [ (44, .if_ cond44),
    (45, .error errNoDisplay),
    (46, .elif cond46),
    (47, .error errTwoDisplays),
    (49, .elif cond49),
    (51, .define "VNC_DISPLAY" (object ["VNC_ILI9341"])),
    (53, .elif cond53),
    (55, .warning warnRA8875),
    (57, .define "VNC_DISPLAY" (object ["VNC_RA8875"])),
    (59, .else_),
    (61, .error errUnknownDisplay),
    (63, .endif) ]

/-- Lines 66-196: transport, encodings, buffers, debug prints, end of guard. -/
def settings : List (Nat × Line) :=
  [ (67, .define "USE_ARDUINO_TCP" flag),
    (68, .define "VNC_TCP_TIMEOUT" (object ["5000"])),
    (71, .define "VNC_RRE" flag),
    (72, .define "VNC_CORRE" flag),
    (73, .define "VNC_HEXTILE" flag),
    (82, .define "VNC_FRAMEBUFFER" flag),
    (93, .ifndef_ "VNC_SAVE_MEMORY"),
    (95, .define "VNC_RAW_BUFFER" (object ["15360"])),
    (96, .endif),
    (108, .ifdef_ "ESP32"),
    (115, .define "DEBUG_VNC" (variadic ["Serial", ".", "printf", "(", "__VA_ARGS__", ")"])),
    (117, .else_),
    (119, .ifdef_ "DEBUG_ESP_PORT"),
    (126, .define "DEBUG_VNC"
            (variadic ["DEBUG_ESP_PORT", ".", "printf", "(", "__VA_ARGS__", ")"])),
    (128, .else_),
    (137, .define "DEBUG_VNC" (variadic ["os_printf", "(", "__VA_ARGS__", ")"])),
    (139, .endif),
    (140, .endif),
    (155, .define "DEBUG_VNC_RAW" (variadic [])),
    (156, .define "DEBUG_VNC_HEXTILE" (variadic [])),
    (157, .define "DEBUG_VNC_RICH_CURSOR" (variadic [])),
    (164, .if_ (.or (.not (.defined "DEBUG_VNC")) (.defined "__DOXYGEN__"))),
    (166, .define "DEBUG_VNC" (variadic [])),
    (167, .endif),
    (176, .ifndef_ "DEBUG_VNC_RAW"),
    (177, .define "DEBUG_VNC_RAW" (variadic ["DEBUG_VNC", "(", "__VA_ARGS__", ")"])),
    (178, .endif),
    (180, .ifndef_ "DEBUG_VNC_HEXTILE"),
    (181, .define "DEBUG_VNC_HEXTILE" (variadic ["DEBUG_VNC", "(", "__VA_ARGS__", ")"])),
    (182, .endif),
    (184, .ifndef_ "DEBUG_VNC_RICH_CURSOR"),
    (185, .define "DEBUG_VNC_RICH_CURSOR" (variadic ["DEBUG_VNC", "(", "__VA_ARGS__", ")"])),
    (186, .endif),
    (196, .endif) ]

/-- The directive lines of `src/VNC_config.h`, in order (comment lines,
commented-out `#define`s and blank lines carry no directive). -/
def VNC_config_h : List (Nat × Line) :=
  guardAndDisplay ++ displaySelection ++ settings

/-- The header as a function of the names defined beforehand. -/
def preprocess (D : Table) : Outcome := preprocessWith VNC_config_h D

/-- The display selection chain (lines 44-63) read on its own, from the table
in force at line 44. -/
def selectDisplay (T : Table) : Outcome := preprocessWith displaySelection T

/-- Whether the end of the file was reached without an `#error`. -/
def Outcome.isAccepted : Outcome → Bool
  | .accepted _ _ _ => true
  | .rejected _ _ => false

/-- The features the header leaves switched off: the names of the
commented-out `#define`s of lines 76-79. -/
def notImplemented : List String :=
  ["VNC_TIGHT", "VNC_ZLIB", "VNC_RICH_CURSOR", "VNC_SEC_TYPE_TIGHT"]

/-! ## Concrete configurations -/

/-- Only the include guard is defined beforehand (a second inclusion, or
`-DVNC_CONFIG_H_=`). -/
def guardOnly : Table := [("VNC_CONFIG_H_", flag)]

/-- Guard and `VNC_RA8875` defined beforehand. -/
def guardAndRA8875 : Table := [("VNC_CONFIG_H_", flag), ("VNC_RA8875", flag)]

/-- Only `VNC_SAVE_MEMORY` is defined beforehand. -/
def saveMemoryOnly : Table := [("VNC_SAVE_MEMORY", flag)]

/-- Both `ESP32` and `DEBUG_ESP_PORT` are defined beforehand. -/
def esp32WithPort : Table := [("ESP32", flag), ("DEBUG_ESP_PORT", object ["Serial1"])]

/-- Only `VNC_RA8875` is defined when the display chain is read. -/
def onlyRA8875 : Table := [("VNC_RA8875", flag)]

/-- What lines 33-82 define whenever they are processed, most recent first. -/
def commonEntries : Table :=
  [ ("VNC_FRAMEBUFFER", flag), ("VNC_HEXTILE", flag), ("VNC_CORRE", flag), ("VNC_RRE", flag),
    ("VNC_TCP_TIMEOUT", object ["5000"]), ("USE_ARDUINO_TCP", flag),
    ("VNC_DISPLAY", object ["VNC_ILI9341"]), ("VNC_ILI9341", flag), ("VNC_CONFIG_H_", flag) ]

/-- What lines 155-157 define, most recent first. -/
def fineGrainedEntries : Table :=
  [ ("DEBUG_VNC_RICH_CURSOR", variadic []), ("DEBUG_VNC_HEXTILE", variadic []),
    ("DEBUG_VNC_RAW", variadic []) ]

/-- The table the header produces from no predefined names. -/
def defaultTable : Table :=
  fineGrainedEntries ++
  [ ("DEBUG_VNC", variadic ["os_printf", "(", "__VA_ARGS__", ")"]),
    ("VNC_RAW_BUFFER", object ["15360"]) ] ++ commonEntries

/-- The lines processed from no predefined names. -/
def defaultLines : List Nat := [33, 38, 51, 67, 68, 71, 72, 73, 82, 95, 137, 155, 156, 157]

/-- The table the header produces from `saveMemoryOnly`. -/
def saveMemoryTable : Table :=
  fineGrainedEntries ++
  [ ("DEBUG_VNC", variadic ["os_printf", "(", "__VA_ARGS__", ")"]) ] ++ commonEntries ++
  saveMemoryOnly

/-- The lines processed from `saveMemoryOnly`. -/
def saveMemoryLines : List Nat := [33, 38, 51, 67, 68, 71, 72, 73, 82, 137, 155, 156, 157]

/-- The table the header produces from `esp32WithPort`. -/
def esp32Table : Table :=
  fineGrainedEntries ++
  [ ("DEBUG_VNC", variadic ["Serial", ".", "printf", "(", "__VA_ARGS__", ")"]),
    ("VNC_RAW_BUFFER", object ["15360"]) ] ++ commonEntries ++ esp32WithPort

/-- The lines processed from `esp32WithPort`. -/
def esp32Lines : List Nat := [33, 38, 51, 67, 68, 71, 72, 73, 82, 95, 115, 155, 156, 157]

/-! ## The header in closed form

The result of reading the header, written out as a function of the four names
its conditionals test; `preprocess_open` below proves it equal to what the
interpreter computes. -/

/-- The definition of `DEBUG_VNC` chosen by lines 108-140. -/
def sinkOf (D : Table) : MacroDef :=
  if isDefined D "ESP32" then variadic ["Serial", ".", "printf", "(", "__VA_ARGS__", ")"]
  else if isDefined D "DEBUG_ESP_PORT" then
    variadic ["DEBUG_ESP_PORT", ".", "printf", "(", "__VA_ARGS__", ")"]
  else variadic ["os_printf", "(", "__VA_ARGS__", ")"]

/-- The line of the `#define DEBUG_VNC` chosen by lines 108-140. -/
def sinkLineOf (D : Table) : Nat :=
  if isDefined D "ESP32" then 115 else if isDefined D "DEBUG_ESP_PORT" then 126 else 137

/-- Apply a list of definitions, first to last. -/
def defineAll (t : Table) (ds : List (String × MacroDef)) : Table :=
  ds.foldl (fun t p => define t p.1 p.2) t

/-- The definitions the header makes when its guard is open and the display
check passes, in the order they are made. -/
def definitionsOf (D : Table) : List (String × MacroDef) :=
  [ ("VNC_CONFIG_H_", flag), ("VNC_ILI9341", flag), ("VNC_DISPLAY", object ["VNC_ILI9341"]),
    ("USE_ARDUINO_TCP", flag), ("VNC_TCP_TIMEOUT", object ["5000"]),
    ("VNC_RRE", flag), ("VNC_CORRE", flag), ("VNC_HEXTILE", flag), ("VNC_FRAMEBUFFER", flag) ]
  ++ (if isDefined D "VNC_SAVE_MEMORY" then [] else [("VNC_RAW_BUFFER", object ["15360"])])
  ++ [ ("DEBUG_VNC", sinkOf D), ("DEBUG_VNC_RAW", variadic []),
       ("DEBUG_VNC_HEXTILE", variadic []), ("DEBUG_VNC_RICH_CURSOR", variadic []) ]
  ++ (if isDefined D "__DOXYGEN__" then [("DEBUG_VNC", variadic [])] else [])

/-- The lines of those definitions. -/
def linesOf (D : Table) : List Nat :=
  [33, 38, 51, 67, 68, 71, 72, 73, 82]
  ++ (if isDefined D "VNC_SAVE_MEMORY" then [] else [95])
  ++ [sinkLineOf D, 155, 156, 157]
  ++ (if isDefined D "__DOXYGEN__" then [166] else [])

/-! ## Facts about the table -/

theorem lookup_erase (t : Table) (m n : String) :
    lookup (erase t m) n = if m = n then none else lookup t n := by
  induction t with
  | nil => simp [erase, lookup]
  | cons p t ih =>
    obtain ⟨k, d⟩ := p
    by_cases hk : k = m
    · subst hk
      by_cases hn : k = n
      · subst hn
        simpa [erase] using ih
      · simpa [erase, lookup, hn] using ih
    · by_cases hn : k = n
      · subst hn
        have hm : ¬ m = k := fun h => hk h.symm
        simp [erase, lookup, hk, hm]
      · simp [erase, lookup, ih, hk, hn]

theorem lookup_define (t : Table) (m n : String) (d : MacroDef) :
    lookup (define t m d) n = if m = n then some d else lookup t n := by
  by_cases h : m = n
  · simp [define, lookup, h]
  · simp [define, lookup, lookup_erase, h]

theorem isDefined_define (t : Table) (m n : String) (d : MacroDef) :
    isDefined (define t m d) n = (decide (m = n) || isDefined t n) := by
  by_cases h : m = n
  · simp [isDefined, lookup_define, h]
  · simp [isDefined, lookup_define, h]

theorem preprocess_guarded (D : Table) (hg : isDefined D "VNC_CONFIG_H_" = true) :
    preprocess D = .accepted D [] [] := by
  simp [preprocess, preprocessWith, VNC_config_h, guardAndDisplay, displaySelection, settings,
    run, step, State.openIf, State.live, Cond.eval, hg]

theorem preprocess_two_displays (D : Table) (hg : isDefined D "VNC_CONFIG_H_" = false)
    (hr : isDefined D "VNC_RA8875" = true) :
    preprocess D = .rejected 47 errTwoDisplays := by
  simp [preprocess, preprocessWith, VNC_config_h, guardAndDisplay, displaySelection, settings,
    cond44, cond46, cond49, cond53,
    run, step, State.openIf, State.live, Cond.eval, isDefined_define, hg, hr]

theorem preprocess_open (D : Table) (hg : isDefined D "VNC_CONFIG_H_" = false)
    (hr : isDefined D "VNC_RA8875" = false) :
    preprocess D = .accepted (defineAll D (definitionsOf D)) [] (linesOf D) := by
  cases hs : isDefined D "VNC_SAVE_MEMORY" <;> cases he : isDefined D "ESP32" <;>
    cases hp : isDefined D "DEBUG_ESP_PORT" <;> cases hd : isDefined D "__DOXYGEN__" <;>
    simp [preprocess, preprocessWith, VNC_config_h, guardAndDisplay, displaySelection, settings,
      cond44, cond46, cond49, cond53,
      run, step, State.openIf, State.live, Cond.eval, isDefined_define, hg, hr, hs, he, hp, hd,
      defineAll, definitionsOf, linesOf, sinkOf, sinkLineOf]

theorem accepted_open (D T : Table) (w : List String) (e : List Nat)
    (hg : isDefined D "VNC_CONFIG_H_" = false) (h : preprocess D = .accepted T w e) :
    isDefined D "VNC_RA8875" = false ∧ T = defineAll D (definitionsOf D) ∧ w = [] ∧
      e = linesOf D := by
  cases hr : isDefined D "VNC_RA8875"
  · rw [preprocess_open D hg hr] at h
    injection h with h1 h2 h3
    exact ⟨rfl, h1.symm, h2.symm, h3.symm⟩
  · rw [preprocess_two_displays D hg hr] at h
    cases h

theorem selectDisplay_eq (T0 : Table) :
    selectDisplay T0 =
      match isDefined T0 "VNC_ILI9341", isDefined T0 "VNC_RA8875" with
      | false, false => .rejected 45 errNoDisplay
      | true, true => .rejected 47 errTwoDisplays
      | true, false => .accepted (define T0 "VNC_DISPLAY" (object ["VNC_ILI9341"])) [] [51]
      | false, true =>
        .accepted (define T0 "VNC_DISPLAY" (object ["VNC_RA8875"])) [warnRA8875] [55, 57] := by
  cases ha : isDefined T0 "VNC_ILI9341" <;> cases hb : isDefined T0 "VNC_RA8875" <;>
    simp [selectDisplay, preprocessWith, displaySelection, cond44, cond46, cond49, cond53,
      run, step, State.openIf, State.live, Cond.eval, ha, hb]

/-! ## Properties of the header -/

/-- C1, counterexample: with only the include guard `VNC_CONFIG_H_` defined
beforehand (and no `VNC_TCP_TIMEOUT`), the header is accepted, line 32 skips
every other line, and the resulting table, which is the initial one, defines
neither `VNC_TCP_TIMEOUT` nor `USE_ARDUINO_TCP`. -/
theorem C1_guard_predefined_leaves_timeout_undefined :
    isDefined guardOnly "VNC_TCP_TIMEOUT" = false ∧
    preprocess guardOnly = .accepted guardOnly [] [] ∧
    lookup guardOnly "VNC_TCP_TIMEOUT" ≠ some (object ["5000"]) ∧
    isDefined guardOnly "USE_ARDUINO_TCP" = false := by
  decide

/-- C1, amended: whenever the header is accepted from a table that predefines
neither the include guard `VNC_CONFIG_H_` nor `VNC_TCP_TIMEOUT`, the resulting
table defines `VNC_TCP_TIMEOUT` as exactly `5000` and defines
`USE_ARDUINO_TCP`, whatever else was predefined. -/
theorem C1_timeout_and_transport (D T : Table) (w : List String) (e : List Nat)
    (hg : isDefined D "VNC_CONFIG_H_" = false)
    (_hT : isDefined D "VNC_TCP_TIMEOUT" = false)
    (h : preprocess D = .accepted T w e) :
    lookup T "VNC_TCP_TIMEOUT" = some (object ["5000"]) ∧
    isDefined T "USE_ARDUINO_TCP" = true := by
  obtain ⟨_, rfl, rfl, rfl⟩ := accepted_open D T w e hg h
  cases hs : isDefined D "VNC_SAVE_MEMORY" <;> cases hd : isDefined D "__DOXYGEN__" <;>
    simp [defineAll, definitionsOf, lookup_define, isDefined_define, hs, hd]

/-- C1, instance: from no predefined names the header yields `defaultTable`,
where `VNC_TCP_TIMEOUT` is `5000` and `USE_ARDUINO_TCP` is defined. -/
theorem C1_timeout_and_transport_default :
    preprocess [] = .accepted defaultTable [] defaultLines ∧
    lookup defaultTable "VNC_TCP_TIMEOUT" = some (object ["5000"]) ∧
    isDefined defaultTable "USE_ARDUINO_TCP" = true :=
  ⟨by rfl, C1_timeout_and_transport [] defaultTable [] defaultLines (by decide) (by decide)
    (by rfl)⟩

/-- C2, counterexample: with only the include guard defined beforehand the
header is accepted and `VNC_SAVE_MEMORY` is not defined, yet line 95 is not
processed and `VNC_RAW_BUFFER` is not defined in the result. -/
theorem C2_guard_predefined_leaves_raw_buffer_undefined :
    isDefined guardOnly "VNC_SAVE_MEMORY" = false ∧
    preprocess guardOnly = .accepted guardOnly [] [] ∧
    isDefined guardOnly "VNC_RAW_BUFFER" = false ∧
    lookup guardOnly "VNC_RAW_BUFFER" ≠ some (object ["15360"]) := by
  decide

/-- C2, amended: whenever the header is accepted from a table that does not
predefine the include guard, (a) if `VNC_SAVE_MEMORY` is not defined then
`VNC_RAW_BUFFER` is defined as `15360`, the decimal numeral of `15 * 1024`;
(b) if `VNC_SAVE_MEMORY` is defined then no `#define VNC_RAW_BUFFER` line of
the header is processed and the name keeps whatever definition it had; (c)
line 95 is processed if and only if `VNC_SAVE_MEMORY` is not defined. -/
theorem C2_raw_buffer (D T : Table) (w : List String) (e : List Nat)
    (hg : isDefined D "VNC_CONFIG_H_" = false)
    (h : preprocess D = .accepted T w e) :
    (isDefined D "VNC_SAVE_MEMORY" = false →
      lookup T "VNC_RAW_BUFFER" = some (object ["15360"]) ∧
      "15360" = Nat.repr (15 * 1024)) ∧
    (isDefined D "VNC_SAVE_MEMORY" = true →
      (∀ ln d, (ln, Line.define "VNC_RAW_BUFFER" d) ∈ VNC_config_h → ln ∉ e) ∧
      lookup T "VNC_RAW_BUFFER" = lookup D "VNC_RAW_BUFFER") ∧
    (95 ∈ e ↔ isDefined D "VNC_SAVE_MEMORY" = false) := by
  obtain ⟨_, rfl, rfl, rfl⟩ := accepted_open D T w e hg h
  have hrepr : "15360" = Nat.repr (15 * 1024) := by decide
  have hline : ∀ ln d, (ln, Line.define "VNC_RAW_BUFFER" d) ∈ VNC_config_h → ln = 95 := by
    intro ln d hmem
    simp [VNC_config_h, guardAndDisplay, displaySelection, settings] at hmem
    exact hmem.1
  cases hs : isDefined D "VNC_SAVE_MEMORY" <;> cases hd : isDefined D "__DOXYGEN__" <;>
    cases he : isDefined D "ESP32" <;> cases hp : isDefined D "DEBUG_ESP_PORT" <;>
    refine ⟨?_, ?_, ?_⟩ <;>
    first
    | (intro hc; cases hc; done)
    | (intro _
       refine ⟨?_, ?_⟩
       · intro ln d hmem
         rw [hline ln d hmem]
         simp [linesOf, sinkLineOf, hs, hd, he, hp]
       · simp [defineAll, definitionsOf, lookup_define, hs, hd])
    | (intro _
       exact ⟨by simp [defineAll, definitionsOf, lookup_define, hs, hd], hrepr⟩)
    | simp [linesOf, sinkLineOf, hs, hd, he, hp]

/-- C2, instance: from no predefined names the header is accepted with
`VNC_RAW_BUFFER` defined as `15360`, and line 95 is among the processed lines. -/
theorem C2_raw_buffer_default :
    isDefined [] "VNC_CONFIG_H_" = false ∧
    preprocess [] = .accepted defaultTable [] defaultLines ∧
    lookup defaultTable "VNC_RAW_BUFFER" = some (object ["15360"]) ∧
    95 ∈ defaultLines :=
  have hc := C2_raw_buffer [] defaultTable [] defaultLines (by decide) (by rfl)
  ⟨by decide, by rfl, (hc.1 (by decide)).1, hc.2.2.mpr (by decide)⟩

/-- C3, counterexample: with only `VNC_SAVE_MEMORY` defined beforehand the
header is accepted and yields `saveMemoryTable`, in which `VNC_FRAMEBUFFER` is
defined (line 82) and `VNC_RAW_BUFFER` is not (line 95 is skipped): the reverse
of what the claim states. -/
theorem C3_save_memory_keeps_framebuffer_drops_raw_buffer :
    isDefined saveMemoryOnly "VNC_SAVE_MEMORY" = true ∧
    preprocess saveMemoryOnly = .accepted saveMemoryTable [] saveMemoryLines ∧
    isDefined saveMemoryTable "VNC_FRAMEBUFFER" = true ∧
    isDefined saveMemoryTable "VNC_RAW_BUFFER" = false := by
  decide

/-- C3, amended: whenever the header is accepted from a table that defines
`VNC_SAVE_MEMORY` and not the include guard, `VNC_FRAMEBUFFER` is defined in
the result (line 82 is unconditional), line 95 is not processed, and
`VNC_RAW_BUFFER` keeps whatever definition it had beforehand, so it is
undefined unless it was predefined. -/
theorem C3_constrained_configuration (D T : Table) (w : List String) (e : List Nat)
    (hg : isDefined D "VNC_CONFIG_H_" = false)
    (hs : isDefined D "VNC_SAVE_MEMORY" = true)
    (h : preprocess D = .accepted T w e) :
    lookup T "VNC_FRAMEBUFFER" = some flag ∧
    95 ∉ e ∧
    lookup T "VNC_RAW_BUFFER" = lookup D "VNC_RAW_BUFFER" ∧
    (isDefined D "VNC_RAW_BUFFER" = false → isDefined T "VNC_RAW_BUFFER" = false) := by
  obtain ⟨_, rfl, rfl, rfl⟩ := accepted_open D T w e hg h
  cases hd : isDefined D "__DOXYGEN__" <;> cases he : isDefined D "ESP32" <;>
    cases hp : isDefined D "DEBUG_ESP_PORT" <;>
    simp [defineAll, definitionsOf, linesOf, sinkLineOf, lookup_define, isDefined_define,
      hs, hd, he, hp]

/-- C3, instance: `saveMemoryOnly` satisfies the hypotheses, and in its result
`VNC_FRAMEBUFFER` is an empty object-like definition while `VNC_RAW_BUFFER`
has none. -/
theorem C3_constrained_configuration_save_memory_only :
    isDefined saveMemoryOnly "VNC_CONFIG_H_" = false ∧
    isDefined saveMemoryOnly "VNC_SAVE_MEMORY" = true ∧
    lookup saveMemoryTable "VNC_FRAMEBUFFER" = some flag ∧
    95 ∉ saveMemoryLines ∧
    lookup saveMemoryTable "VNC_RAW_BUFFER" = none :=
  have hc := C3_constrained_configuration saveMemoryOnly saveMemoryTable [] saveMemoryLines
    (by decide) (by decide) (by rfl)
  ⟨by decide, by decide, hc.1, hc.2.1, hc.2.2.1⟩

/-- C4, counterexample: with only the include guard defined beforehand the
header is accepted and none of `VNC_RRE`, `VNC_CORRE`, `VNC_HEXTILE` is
defined in the result. -/
theorem C4_guard_predefined_leaves_encodings_undefined :
    preprocess guardOnly = .accepted guardOnly [] [] ∧
    isDefined guardOnly "VNC_RRE" = false ∧
    isDefined guardOnly "VNC_CORRE" = false ∧
    isDefined guardOnly "VNC_HEXTILE" = false := by
  decide

/-- C4, amended: whenever the header is accepted from a table that does not
predefine the include guard, `VNC_RRE`, `VNC_CORRE` and `VNC_HEXTILE` are all
defined in the result (each by its `#define` of lines 71-73), whatever the
display, platform or memory option. -/
theorem C4_encodings_compiled_in (D T : Table) (w : List String) (e : List Nat)
    (hg : isDefined D "VNC_CONFIG_H_" = false)
    (h : preprocess D = .accepted T w e) :
    lookup T "VNC_RRE" = some flag ∧
    lookup T "VNC_CORRE" = some flag ∧
    lookup T "VNC_HEXTILE" = some flag ∧
    71 ∈ e ∧ 72 ∈ e ∧ 73 ∈ e := by
  obtain ⟨_, rfl, rfl, rfl⟩ := accepted_open D T w e hg h
  cases hs : isDefined D "VNC_SAVE_MEMORY" <;> cases hd : isDefined D "__DOXYGEN__" <;>
    simp [defineAll, definitionsOf, linesOf, lookup_define, hs, hd]

/-- C4, instance: with `ESP32` and `DEBUG_ESP_PORT` defined beforehand the
header yields `esp32Table`, where the three encodings are defined. -/
theorem C4_encodings_compiled_in_esp32 :
    isDefined esp32WithPort "VNC_CONFIG_H_" = false ∧
    preprocess esp32WithPort = .accepted esp32Table [] esp32Lines ∧
    isDefined esp32Table "VNC_RRE" = true ∧
    isDefined esp32Table "VNC_CORRE" = true ∧
    isDefined esp32Table "VNC_HEXTILE" = true :=
  have hc := C4_encodings_compiled_in esp32WithPort esp32Table [] esp32Lines (by decide) (by rfl)
  ⟨by decide, by rfl, by rw [isDefined, hc.1]; rfl, by rw [isDefined, hc.2.1]; rfl,
    by rw [isDefined, hc.2.2.1]; rfl⟩

/-- C5: for every table `D` on which the header is accepted, each of
`VNC_TIGHT`, `VNC_ZLIB`, `VNC_RICH_CURSOR`, `VNC_SEC_TYPE_TIGHT` is defined in
the result if and only if it was defined in `D` (its definition is in fact
unchanged); in particular from no predefined names none of them is defined. -/
theorem C5_not_implemented_untouched (D T : Table) (w : List String) (e : List Nat)
    (n : String) (hn : n ∈ notImplemented)
    (h : preprocess D = .accepted T w e) :
    (isDefined T n = true ↔ isDefined D n = true) ∧
    lookup T n = lookup D n ∧
    (D = [] → isDefined T n = false) := by
  have key : lookup T n = lookup D n := by
    cases hg : isDefined D "VNC_CONFIG_H_"
    · obtain ⟨_, rfl, rfl, rfl⟩ := accepted_open D T w e hg h
      simp only [notImplemented, List.mem_cons, List.mem_singleton, List.not_mem_nil,
        or_false] at hn
      cases hs : isDefined D "VNC_SAVE_MEMORY" <;> cases hd : isDefined D "__DOXYGEN__" <;>
        rcases hn with rfl | rfl | rfl | rfl <;>
        simp [defineAll, definitionsOf, lookup_define, hs, hd]
    · rw [preprocess_guarded D hg] at h
      injection h with h1 _ _
      rw [h1]
  refine ⟨by simp [isDefined, key], key, ?_⟩
  intro hD
  subst hD
  simp [isDefined, key, lookup]

/-- C5, instance: from no predefined names, `VNC_ZLIB` is not defined in the
result. -/
theorem C5_not_implemented_untouched_default :
    "VNC_ZLIB" ∈ notImplemented ∧
    preprocess [] = .accepted defaultTable [] defaultLines ∧
    isDefined defaultTable "VNC_ZLIB" = false :=
  ⟨by decide, by rfl,
    (C5_not_implemented_untouched [] defaultTable [] defaultLines "VNC_ZLIB" (by decide)
      (by rfl)).2.2 rfl⟩

/-- C6, counterexample: from no predefined names the header is accepted and
`DEBUG_VNC(...)` has the replacement list `os_printf(__VA_ARGS__)` of line
137, which is not empty; the discarding definition of line 166 is not among
the processed lines. -/
theorem C6_default_hook_prints :
    preprocess [] = .accepted defaultTable [] defaultLines ∧
    lookup defaultTable "DEBUG_VNC" = some (variadic ["os_printf", "(", "__VA_ARGS__", ")"]) ∧
    lookup defaultTable "DEBUG_VNC" ≠ some (variadic []) ∧
    (variadic ["os_printf", "(", "__VA_ARGS__", ")"]).body ≠ [] ∧
    137 ∈ defaultLines ∧ 166 ∉ defaultLines := by
  decide

/-- C6, amended: whenever the header is accepted from a table that defines
none of `VNC_CONFIG_H_`, `ESP32`, `DEBUG_ESP_PORT`, `__DOXYGEN__` (in
particular from no predefined names), `DEBUG_VNC(...)` has the replacement
list `os_printf(__VA_ARGS__)` of line 137, which is not empty, line 137 is
processed and the discarding definition of line 166 is not. -/
theorem C6_default_hook_is_os_printf (D T : Table) (w : List String) (e : List Nat)
    (hg : isDefined D "VNC_CONFIG_H_" = false)
    (he : isDefined D "ESP32" = false)
    (hp : isDefined D "DEBUG_ESP_PORT" = false)
    (hd : isDefined D "__DOXYGEN__" = false)
    (h : preprocess D = .accepted T w e) :
    lookup T "DEBUG_VNC" = some (variadic ["os_printf", "(", "__VA_ARGS__", ")"]) ∧
    (∀ d, lookup T "DEBUG_VNC" = some d → d.body ≠ []) ∧
    137 ∈ e ∧ 166 ∉ e := by
  obtain ⟨_, rfl, rfl, rfl⟩ := accepted_open D T w e hg h
  have hl : lookup (defineAll D (definitionsOf D)) "DEBUG_VNC"
      = some (variadic ["os_printf", "(", "__VA_ARGS__", ")"]) := by
    cases hs : isDefined D "VNC_SAVE_MEMORY" <;>
      simp [defineAll, definitionsOf, sinkOf, lookup_define, hs, hd, he, hp]
  refine ⟨hl, ?_, ?_, ?_⟩
  · intro d hdef
    rw [hl] at hdef
    injection hdef with hdef
    subst hdef
    simp [variadic]
  · cases hs : isDefined D "VNC_SAVE_MEMORY" <;>
      simp [linesOf, sinkLineOf, hs, hd, he, hp]
  · cases hs : isDefined D "VNC_SAVE_MEMORY" <;>
      simp [linesOf, sinkLineOf, hs, hd, he, hp]

/-- C6, instance: the empty table satisfies the hypotheses; there `DEBUG_VNC`
is `os_printf(__VA_ARGS__)` and line 137 is processed. -/
theorem C6_default_hook_is_os_printf_default :
    isDefined [] "ESP32" = false ∧ isDefined [] "DEBUG_ESP_PORT" = false ∧
    isDefined [] "__DOXYGEN__" = false ∧
    lookup defaultTable "DEBUG_VNC" = some (variadic ["os_printf", "(", "__VA_ARGS__", ")"]) ∧
    137 ∈ defaultLines ∧ 166 ∉ defaultLines :=
  have hc := C6_default_hook_is_os_printf [] defaultTable [] defaultLines (by decide)
    (by decide) (by decide) (by decide) (by rfl)
  ⟨by decide, by decide, by decide, hc.1, hc.2.2⟩

/-- C7, counterexample: with the include guard and `VNC_RA8875` both defined
beforehand the header is accepted although `VNC_RA8875` is predefined, and
`VNC_DISPLAY` is not defined in the result. -/
theorem C7_guard_predefined_accepts_RA8875 :
    isDefined guardAndRA8875 "VNC_RA8875" = true ∧
    preprocess guardAndRA8875 = .accepted guardAndRA8875 [] [] ∧
    (preprocess guardAndRA8875).isAccepted = true ∧
    lookup guardAndRA8875 "VNC_DISPLAY" ≠ some (object ["VNC_ILI9341"]) := by
  decide

/-- C7, amended: read from any table `T0`, the selection chain of lines 44-63
is accepted if and only if exactly one of `VNC_ILI9341`, `VNC_RA8875` is
defined in `T0`; with neither it stops at the `#error` of line 45, with both
at the `#error` of line 47; with `VNC_ILI9341` alone it defines `VNC_DISPLAY`
as `VNC_ILI9341`, with `VNC_RA8875` alone it issues the warning of line 55 and
defines `VNC_DISPLAY` as `VNC_RA8875`.  The whole header, read from a table
`D` that does not predefine the include guard, is accepted if and only if
`VNC_RA8875` is not defined in `D` (otherwise it stops at line 47), and then
`VNC_DISPLAY` is `VNC_ILI9341`. -/
theorem C7_display_selection (T0 D : Table) :
    (selectDisplay T0 =
      match isDefined T0 "VNC_ILI9341", isDefined T0 "VNC_RA8875" with
      | false, false => .rejected 45 errNoDisplay
      | true, true => .rejected 47 errTwoDisplays
      | true, false => .accepted (define T0 "VNC_DISPLAY" (object ["VNC_ILI9341"])) [] [51]
      | false, true =>
        .accepted (define T0 "VNC_DISPLAY" (object ["VNC_RA8875"])) [warnRA8875] [55, 57]) ∧
    ((selectDisplay T0).isAccepted =
      Bool.xor (isDefined T0 "VNC_ILI9341") (isDefined T0 "VNC_RA8875")) ∧
    (∀ T w e, selectDisplay T0 = .accepted T w e →
      lookup T "VNC_DISPLAY" =
        some (object [if isDefined T0 "VNC_ILI9341" = true then "VNC_ILI9341"
                      else "VNC_RA8875"])) ∧
    (isDefined D "VNC_CONFIG_H_" = false →
      ((preprocess D).isAccepted = !isDefined D "VNC_RA8875") ∧
      (isDefined D "VNC_RA8875" = true → preprocess D = .rejected 47 errTwoDisplays) ∧
      (∀ T w e, preprocess D = .accepted T w e →
        lookup T "VNC_DISPLAY" = some (object ["VNC_ILI9341"]))) := by
  refine ⟨selectDisplay_eq T0, ?_, ?_, fun hg => ⟨?_, ?_, ?_⟩⟩
  · rw [selectDisplay_eq T0]
    cases isDefined T0 "VNC_ILI9341" <;> cases isDefined T0 "VNC_RA8875" <;> rfl
  · intro T w e hsel
    rw [selectDisplay_eq T0] at hsel
    cases ha : isDefined T0 "VNC_ILI9341" <;> cases hb : isDefined T0 "VNC_RA8875" <;>
      simp only [ha, hb] at hsel <;>
      first
      | (cases hsel; done)
      | (injection hsel with h1 _ _
         subst h1
         simp [lookup_define])
  · cases hr : isDefined D "VNC_RA8875"
    · rw [preprocess_open D hg hr]
      rfl
    · rw [preprocess_two_displays D hg hr]
      rfl
  · intro hr
    exact preprocess_two_displays D hg hr
  · intro T w e h
    obtain ⟨_, rfl, rfl, rfl⟩ := accepted_open D T w e hg h
    cases hs : isDefined D "VNC_SAVE_MEMORY" <;> cases hd : isDefined D "__DOXYGEN__" <;>
      simp [defineAll, definitionsOf, lookup_define, hs, hd]

/-- C7, instance: read from a table holding only `VNC_RA8875`, the chain is
accepted with the warning of line 55 and `VNC_DISPLAY` defined as
`VNC_RA8875`; the whole header read from no predefined names is accepted. -/
theorem C7_display_selection_RA8875_alone :
    isDefined [] "VNC_CONFIG_H_" = false ∧
    selectDisplay onlyRA8875 =
      .accepted (("VNC_DISPLAY", object ["VNC_RA8875"]) :: onlyRA8875) [warnRA8875] [55, 57] ∧
    (preprocess []).isAccepted = true :=
  have hc := C7_display_selection onlyRA8875 []
  ⟨by decide, hc.1, (hc.2.2.2 (by decide)).1⟩

/-- C8, counterexample: with only the include guard defined beforehand the
header is accepted and none of `DEBUG_VNC_RAW`, `DEBUG_VNC_HEXTILE`,
`DEBUG_VNC_RICH_CURSOR` was predefined, yet none of them has a definition,
empty or not, in the result. -/
theorem C8_guard_predefined_leaves_channels_undefined :
    preprocess guardOnly = .accepted guardOnly [] [] ∧
    lookup guardOnly "DEBUG_VNC_RAW" = none ∧
    lookup guardOnly "DEBUG_VNC_HEXTILE" = none ∧
    lookup guardOnly "DEBUG_VNC_RICH_CURSOR" = none := by
  decide

/-- C8, amended: whenever the header is accepted from a table that predefines
neither the include guard nor any of the three names, `DEBUG_VNC_RAW(...)`,
`DEBUG_VNC_HEXTILE(...)` and `DEBUG_VNC_RICH_CURSOR(...)` have empty
replacement lists in the result, so that every call is replaced by nothing,
whatever `DEBUG_VNC` is; and on every accepted run, none of the fallback
definitions of lines 177, 181 and 185 is processed. -/
theorem C8_fine_grained_channels_discard (D T : Table) (w : List String) (e : List Nat)
    (hg : isDefined D "VNC_CONFIG_H_" = false)
    (_hn : isDefined D "DEBUG_VNC_RAW" = false ∧ isDefined D "DEBUG_VNC_HEXTILE" = false ∧
      isDefined D "DEBUG_VNC_RICH_CURSOR" = false)
    (h : preprocess D = .accepted T w e) :
    lookup T "DEBUG_VNC_RAW" = some (variadic []) ∧
    lookup T "DEBUG_VNC_HEXTILE" = some (variadic []) ∧
    lookup T "DEBUG_VNC_RICH_CURSOR" = some (variadic []) ∧
    (∀ args, invoke (variadic []) args = []) ∧
    177 ∉ e ∧ 181 ∉ e ∧ 185 ∉ e ∧
    (∀ D0 T0 w0 e0, preprocess D0 = .accepted T0 w0 e0 → 177 ∉ e0 ∧ 181 ∉ e0 ∧ 185 ∉ e0) := by
  have hlines : ∀ D0, 177 ∉ linesOf D0 ∧ 181 ∉ linesOf D0 ∧ 185 ∉ linesOf D0 := by
    intro D0
    cases hs : isDefined D0 "VNC_SAVE_MEMORY" <;> cases hd : isDefined D0 "__DOXYGEN__" <;>
      cases he : isDefined D0 "ESP32" <;> cases hp : isDefined D0 "DEBUG_ESP_PORT" <;>
      simp [linesOf, sinkLineOf, hs, hd, he, hp]
  have hall : ∀ D0 T0 w0 e0, preprocess D0 = .accepted T0 w0 e0 →
      177 ∉ e0 ∧ 181 ∉ e0 ∧ 185 ∉ e0 := by
    intro D0 T0 w0 e0 h0
    cases hg0 : isDefined D0 "VNC_CONFIG_H_"
    · obtain ⟨_, _, _, rfl⟩ := accepted_open D0 T0 w0 e0 hg0 h0
      exact hlines D0
    · rw [preprocess_guarded D0 hg0] at h0
      injection h0 with _ _ h3
      subst h3
      simp
  obtain ⟨h177, h181, h185⟩ := hall D T w e h
  obtain ⟨_, rfl, rfl, rfl⟩ := accepted_open D T w e hg h
  refine ⟨?_, ?_, ?_, ?_, h177, h181, h185, hall⟩
  · cases hs : isDefined D "VNC_SAVE_MEMORY" <;> cases hd : isDefined D "__DOXYGEN__" <;>
      simp [defineAll, definitionsOf, lookup_define, hs, hd]
  · cases hs : isDefined D "VNC_SAVE_MEMORY" <;> cases hd : isDefined D "__DOXYGEN__" <;>
      simp [defineAll, definitionsOf, lookup_define, hs, hd]
  · cases hs : isDefined D "VNC_SAVE_MEMORY" <;> cases hd : isDefined D "__DOXYGEN__" <;>
      simp [defineAll, definitionsOf, lookup_define, hs, hd]
  · intro args
    simp [invoke, variadic]

/-- C8, instance: with `ESP32` and `DEBUG_ESP_PORT` defined beforehand, where
`DEBUG_VNC` prints through `Serial.printf`, the three finer channels still
have empty replacement lists. -/
theorem C8_fine_grained_channels_discard_esp32 :
    isDefined esp32WithPort "VNC_CONFIG_H_" = false ∧
    isDefined esp32WithPort "DEBUG_VNC_RAW" = false ∧
    lookup esp32Table "DEBUG_VNC" = some (variadic ["Serial", ".", "printf", "(", "__VA_ARGS__", ")"]) ∧
    lookup esp32Table "DEBUG_VNC_RAW" = some (variadic []) ∧
    lookup esp32Table "DEBUG_VNC_HEXTILE" = some (variadic []) ∧
    lookup esp32Table "DEBUG_VNC_RICH_CURSOR" = some (variadic []) :=
  have hc := C8_fine_grained_channels_discard esp32WithPort esp32Table [] esp32Lines
    (by decide) (by decide) (by rfl)
  ⟨by decide, by decide, by decide, hc.1, hc.2.1, hc.2.2.1⟩

/-- C9, counterexample: with only the include guard defined beforehand the
header is accepted, `__DOXYGEN__`, `ESP32` and `DEBUG_ESP_PORT` are not
defined, and yet `DEBUG_VNC` has no definition in the result (the claim
requires `os_printf(...)`). -/
theorem C9_guard_predefined_leaves_debug_undefined :
    isDefined guardOnly "__DOXYGEN__" = false ∧
    isDefined guardOnly "ESP32" = false ∧
    isDefined guardOnly "DEBUG_ESP_PORT" = false ∧
    preprocess guardOnly = .accepted guardOnly [] [] ∧
    lookup guardOnly "DEBUG_VNC" = none := by
  decide

/-- C9, amended: whenever the header is accepted from a table `D` that does
not predefine the include guard, exactly one of the three definitions of
`DEBUG_VNC` on lines 115, 126, 137 is processed, chosen by `ESP32` and
`DEBUG_ESP_PORT` alone with `ESP32` first; the discarding definition of line
166 is processed if and only if `__DOXYGEN__` is defined in `D`; so without
`__DOXYGEN__` the replacement list of `DEBUG_VNC(...)` in the result is
`Serial.printf(__VA_ARGS__)` if `ESP32` is defined,
`DEBUG_ESP_PORT.printf(__VA_ARGS__)` if only `DEBUG_ESP_PORT` is (its first
token being that defined name), and `os_printf(__VA_ARGS__)` if neither is,
and with `__DOXYGEN__` the replacement list is empty. -/
theorem C9_debug_sink (D T : Table) (w : List String) (e : List Nat)
    (hg : isDefined D "VNC_CONFIG_H_" = false)
    (h : preprocess D = .accepted T w e) :
    (isDefined D "__DOXYGEN__" = false →
      lookup T "DEBUG_VNC" = some (variadic
        (if isDefined D "ESP32" = true then ["Serial", ".", "printf", "(", "__VA_ARGS__", ")"]
         else if isDefined D "DEBUG_ESP_PORT" = true then
           ["DEBUG_ESP_PORT", ".", "printf", "(", "__VA_ARGS__", ")"]
         else ["os_printf", "(", "__VA_ARGS__", ")"]))) ∧
    (115 ∈ e ↔ isDefined D "ESP32" = true) ∧
    (126 ∈ e ↔ isDefined D "ESP32" = false ∧ isDefined D "DEBUG_ESP_PORT" = true) ∧
    (137 ∈ e ↔ isDefined D "ESP32" = false ∧ isDefined D "DEBUG_ESP_PORT" = false) ∧
    (166 ∈ e ↔ isDefined D "__DOXYGEN__" = true) ∧
    (isDefined D "__DOXYGEN__" = true → lookup T "DEBUG_VNC" = some (variadic [])) := by
  obtain ⟨_, rfl, rfl, rfl⟩ := accepted_open D T w e hg h
  cases hs : isDefined D "VNC_SAVE_MEMORY" <;> cases hd : isDefined D "__DOXYGEN__" <;>
    cases he : isDefined D "ESP32" <;> cases hp : isDefined D "DEBUG_ESP_PORT" <;>
    simp [defineAll, definitionsOf, linesOf, sinkOf, sinkLineOf, lookup_define, hs, hd, he, hp]

/-- C9, instance: with both `ESP32` and `DEBUG_ESP_PORT` defined beforehand,
`ESP32` wins: line 115 is processed, line 126 is not, and `DEBUG_VNC(...)` is
`Serial.printf(__VA_ARGS__)`. -/
theorem C9_debug_sink_esp32_precedence :
    isDefined esp32WithPort "VNC_CONFIG_H_" = false ∧
    isDefined esp32WithPort "ESP32" = true ∧
    isDefined esp32WithPort "DEBUG_ESP_PORT" = true ∧
    preprocess esp32WithPort = .accepted esp32Table [] esp32Lines ∧
    lookup esp32Table "DEBUG_VNC"
      = some (variadic ["Serial", ".", "printf", "(", "__VA_ARGS__", ")"]) ∧
    115 ∈ esp32Lines ∧ 126 ∉ esp32Lines ∧ 166 ∉ esp32Lines :=
  have hc := C9_debug_sink esp32WithPort esp32Table [] esp32Lines (by decide) (by rfl)
  ⟨by decide, by decide, by decide, by rfl, hc.1 (by decide), hc.2.1.mpr (by decide),
    fun h126 => absurd (hc.2.2.1.mp h126).1 (by decide),
    fun h166 => absurd (hc.2.2.2.2.1.mp h166) (by decide)⟩

/-- C10: whatever table `T0` is in force at line 44, one of the four
conditions of lines 44, 46, 49, 53 holds, so the chain of lines 44-63 never
reaches the `#error` of line 61; nor does the whole header, from any table `D`
of predefined names. -/
theorem C10_unknown_error_unreachable (T0 D : Table) :
    (cond44.eval T0 || cond46.eval T0 || cond49.eval T0 || cond53.eval T0) = true ∧
    (∀ msg, selectDisplay T0 ≠ .rejected 61 msg) ∧
    (∀ ln, selectDisplay T0 ≠ .rejected ln errUnknownDisplay) ∧
    (∀ msg, preprocess D ≠ .rejected 61 msg) ∧
    (∀ ln, preprocess D ≠ .rejected ln errUnknownDisplay) := by
  have hne : errTwoDisplays ≠ errUnknownDisplay := by decide
  have hne2 : errNoDisplay ≠ errUnknownDisplay := by decide
  refine ⟨?_, ?_, ?_, ?_, ?_⟩
  · cases ha : isDefined T0 "VNC_ILI9341" <;> cases hb : isDefined T0 "VNC_RA8875" <;>
      simp [cond44, cond46, cond49, cond53, Cond.eval, ha, hb]
  · intro msg
    rw [selectDisplay_eq T0]
    cases isDefined T0 "VNC_ILI9341" <;> cases isDefined T0 "VNC_RA8875" <;> simp
  · intro ln
    rw [selectDisplay_eq T0]
    cases isDefined T0 "VNC_ILI9341" <;> cases isDefined T0 "VNC_RA8875" <;> simp [hne, hne2]
  · intro msg
    cases hg : isDefined D "VNC_CONFIG_H_"
    · cases hr : isDefined D "VNC_RA8875"
      · rw [preprocess_open D hg hr]
        simp
      · rw [preprocess_two_displays D hg hr]
        simp
    · rw [preprocess_guarded D hg]
      simp
  · intro ln
    cases hg : isDefined D "VNC_CONFIG_H_"
    · cases hr : isDefined D "VNC_RA8875"
      · rw [preprocess_open D hg hr]
        simp
      · rw [preprocess_two_displays D hg hr]
        simp [hne]
    · rw [preprocess_guarded D hg]
      simp

end VNCConfig

